import Mathlib

/-!
Verification of the task-scheduler core of `backend/services/task_scheduler.py`.

Modelling conventions:
* Timestamps (`datetime.utcnow()` values and everything `datetime.fromisoformat`
  produces) are integers counting seconds since the epoch, UTC.  `timedelta(seconds = n)`
  is addition of `n`.
* A Python string that this module feeds to a parser is classified by which parser
  accepts it (`PStr`): `int(s)` succeeds exactly on `intStr`, `datetime.fromisoformat(s)`
  exactly on `isoStr`, `croniter(s, now)` exactly on `cronStr`.  No real string is
  accepted by more than one of these three parsers, so the classification is exact.
  A `cronStr` carries the function `now ↦ croniter(s, now).get_next(datetime)`.
* `HAS_CRONITER` reflects the deployed configuration in which the `croniter`
  library loads successfully; the fallback branch for a missing library is still
  modelled.
-/

namespace TaskSchedulerModel

/-- A Python string as classified by the parsers the scheduler module applies to it. -/
inductive PStr where
  | intStr (n : Int)
  | isoStr (t : Int)
  | cronStr (next : Int → Int)
  | junk (s : String)

/-- Python `int(s)`: succeeds exactly on strings that spell an integer. -/
def pyIntOf : PStr → Option Int
  | .intStr n => some n
  | _ => none

/-- Python `datetime.fromisoformat(s)`: succeeds exactly on ISO-8601 timestamps. -/
def fromiso : PStr → Option Int
  | .isoStr t => some t
  | _ => none

/-- Python `croniter(s, now)`: succeeds exactly on valid cron expressions, yielding
the `get_next` function; on anything else it raises (`ValueError`/`KeyError`). -/
def cronOf : PStr → Option (Int → Int)
  | .cronStr f => some f
  | _ => none

/-- Python truthiness of a string: the empty string is falsy, all others truthy. -/
def PStr.truthy : PStr → Bool
  | .junk s => !s.isEmpty
  | _ => true

/-- Python truthiness of an `Optional[str]` field: `None` and `""` are falsy. -/
def truthyOpt : Option PStr → Bool
  | none => false
  | some p => p.truthy

/-- Enum `ScheduleType` of `task_scheduler.py`. -/
inductive ScheduleType where
  | cron
  | interval
  | once
deriving DecidableEq, Repr

/-- The `.value` string of a `ScheduleType` member. -/
def ScheduleType.value : ScheduleType → String
  | .cron => "cron"
  | .interval => "interval"
  | .once => "once"

/-- Python `ScheduleType(s)`: looks a member up by value, `none` models the
`ValueError` raised for an unknown value. -/
def ScheduleType.ofValue (s : String) : Option ScheduleType :=
  if s = "cron" then some .cron
  else if s = "interval" then some .interval
  else if s = "once" then some .once
  else none

/-- Enum `TaskStatus` of `task_scheduler.py`. -/
inductive TaskStatus where
  | pending
  | running
  | completed
  | failed
  | disabled
deriving DecidableEq, Repr

/-- The `.value` string of a `TaskStatus` member. -/
def TaskStatus.value : TaskStatus → String
  | .pending => "pending"
  | .running => "running"
  | .completed => "completed"
  | .failed => "failed"
  | .disabled => "disabled"

/-- Python `TaskStatus(s)`: member lookup by value, `none` models `ValueError`. -/
def TaskStatus.ofValue (s : String) : Option TaskStatus :=
  if s = "pending" then some .pending
  else if s = "running" then some .running
  else if s = "completed" then some .completed
  else if s = "failed" then some .failed
  else if s = "disabled" then some .disabled
  else none

/-- Enum `SkillType` of `research_agent.py`. -/
inductive SkillType where
  | analyze_profile
  | compare_compatibility
  | forecast_period
  | research_patterns
  | explain_concept
  | generate_report
  | discuss
deriving DecidableEq, Repr

/-- The `.value` string of a `SkillType` member. -/
def SkillType.value : SkillType → String
  | .analyze_profile => "analyze_profile"
  | .compare_compatibility => "compare_compatibility"
  | .forecast_period => "forecast_period"
  | .research_patterns => "research_patterns"
  | .explain_concept => "explain_concept"
  | .generate_report => "generate_report"
  | .discuss => "discuss"

/-- Python `SkillType(s)`: member lookup by value, `none` models `ValueError`. -/
def SkillType.ofValue (s : String) : Option SkillType :=
  if s = "analyze_profile" then some .analyze_profile
  else if s = "compare_compatibility" then some .compare_compatibility
  else if s = "forecast_period" then some .forecast_period
  else if s = "research_patterns" then some .research_patterns
  else if s = "explain_concept" then some .explain_concept
  else if s = "generate_report" then some .generate_report
  else if s = "discuss" then some .discuss
  else none

/-- Dataclass `ScheduledTask` of `task_scheduler.py`. -/
structure ScheduledTask where
  task_id : String
  name : String
  description : String
  schedule_type : ScheduleType
  schedule_value : PStr
  skill_type : SkillType
  context : List (String × String)
  prompt : String
  status : TaskStatus
  last_run : Option PStr
  next_run : Option PStr
  run_count : Nat
  session_id : Option String
  notify_callback : Option String
  created_at : PStr
  updated_at : PStr
  timezone : String

/-- Configuration flag: the `croniter` import succeeds in the deployed setup. -/
def HAS_CRONITER : Bool := true

/-- Fallback used when `croniter` is missing: `(now + timedelta(days=1)).replace(hour=9,
minute=0, second=0, microsecond=0)`, i.e. 09:00 UTC on the day after `now`. -/
def fallbackDailyNine (now : Int) : Int :=
  ((now + 86400) / 86400) * 86400 + 9 * 3600

/-- `ScheduleCalculator.calculate_next_run`, with the implicit `datetime.utcnow()`
made an explicit `now` argument. -/
def calculate_next_run (hasCroniter : Bool) (now : Int) (task : ScheduledTask) :
    Option Int :=
  match task.schedule_type with
  | .cron =>
    if hasCroniter then
      match cronOf task.schedule_value with
      | some f => some (f now)
      | none => none
    else
      some (fallbackDailyNine now)
  | .interval =>
    match pyIntOf task.schedule_value with
    | none => none
    | some interval_seconds =>
      if truthyOpt task.last_run then
        match task.last_run with
        | some lr =>
          match fromiso lr with
          | some last => some (last + interval_seconds)
          | none => none
        | none => none
      else
        some (now + interval_seconds)
  | .once =>
    match fromiso task.schedule_value with
    | none => none
    | some scheduled_time =>
      if scheduled_time > now ∧ task.run_count = 0 then some scheduled_time
      else none

/-- `ScheduleCalculator.is_due`, with `datetime.utcnow()` made an explicit `now`. -/
def is_due (now : Int) (task : ScheduledTask) : Bool :=
  if task.status = TaskStatus.disabled then false
  else if !truthyOpt task.next_run then false
  else
    match task.next_run with
    | some nr =>
      match fromiso nr with
      | some next_run => decide (now ≥ next_run)
      | none => false
    | none => false

/-- Python exceptions distinguished by `load_task`'s `except` clause. -/
inductive PyExc where
  | keyError
  | valueError
deriving DecidableEq, Repr

/-- The persisted JSON record for a task: each field is `some v` when the key is
present with value `v`, `none` when the key is absent (so `data[k]` raises
`KeyError` and `data.get(k, d)` yields the default).  Nullable fields carry a
further `Option` for JSON `null`. -/
structure TaskDict where
  task_id : Option String
  name : Option String
  description : Option String
  schedule_type : Option String
  schedule_value : Option PStr
  skill_type : Option String
  context : Option (List (String × String))
  prompt : Option String
  status : Option String
  last_run : Option (Option PStr)
  next_run : Option (Option PStr)
  run_count : Option Nat
  session_id : Option (Option String)
  notify_callback : Option (Option String)
  created_at : Option PStr
  updated_at : Option PStr
  timezone : Option String

/-- Python `data[k]`: raises `KeyError` when the key is absent. -/
def getKey {α : Type} (x : Option α) : Except PyExc α :=
  match x with
  | some v => Except.ok v
  | none => Except.error PyExc.keyError

/-- Python `Enum(s)` member lookup: raises `ValueError` for an unknown value. -/
def enumOf {α : Type} (ofValue : String → Option α) (s : String) : Except PyExc α :=
  match ofValue s with
  | some v => Except.ok v
  | none => Except.error PyExc.valueError

/-- `ScheduledTask.to_dict`: `asdict(self)` with the three enum fields replaced by
their `.value` strings.  Every key is present in the produced record. -/
def to_dict (task : ScheduledTask) : TaskDict where
  task_id := some task.task_id
  name := some task.name
  description := some task.description
  schedule_type := some task.schedule_type.value
  schedule_value := some task.schedule_value
  skill_type := some task.skill_type.value
  context := some task.context
  prompt := some task.prompt
  status := some task.status.value
  last_run := some task.last_run
  next_run := some task.next_run
  run_count := some task.run_count
  session_id := some task.session_id
  notify_callback := some task.notify_callback
  created_at := some task.created_at
  updated_at := some task.updated_at
  timezone := some task.timezone

/-- `ScheduledTask.from_dict`: required keys via `data[k]` (`KeyError` when absent),
the rest via `data.get(k, default)`; the three enum constructors raise `ValueError`
on an unknown value.  Failures occur in Python's argument-evaluation order.  `now`
stands for the `datetime.utcnow()` used by the `created_at`/`updated_at` defaults. -/
def from_dict (now : Int) (d : TaskDict) : Except PyExc ScheduledTask := do
  let tid ← getKey d.task_id
  let nm ← getKey d.name
  let desc ← getKey d.description
  let stS ← getKey d.schedule_type
  let st ← enumOf ScheduleType.ofValue stS
  let sv ← getKey d.schedule_value
  let skS ← getKey d.skill_type
  let sk ← enumOf SkillType.ofValue skS
  let stat ← enumOf TaskStatus.ofValue (d.status.getD "pending")
  Except.ok
    { task_id := tid
      name := nm
      description := desc
      schedule_type := st
      schedule_value := sv
      skill_type := sk
      context := d.context.getD []
      prompt := d.prompt.getD ""
      status := stat
      last_run := d.last_run.getD none
      next_run := d.next_run.getD none
      run_count := d.run_count.getD 0
      session_id := d.session_id.getD none
      notify_callback := d.notify_callback.getD none
      created_at := d.created_at.getD (PStr.isoStr now)
      updated_at := d.updated_at.getD (PStr.isoStr now)
      timezone := d.timezone.getD "UTC" }

/-- Dataclass `TaskResult` of `task_scheduler.py`. -/
structure TaskResult where
  task_id : String
  execution_id : String
  started_at : PStr
  completed_at : PStr
  success : Bool
  result_content : String
  error : Option String
  duration_ms : Int

/-- Dataclass `SkillResult` of `research_agent.py` (the Skill Executor's reply). -/
structure SkillResult where
  success : Bool
  content : String
  data : Option (List (String × String))
  error : Option String

/-- Outcome of `await research_agent.execute_skill(...)`: either a returned
`SkillResult`, or a raised exception carrying `str(e)`. -/
inductive SkillOutcome where
  | res (r : SkillResult)
  | exc (msg : String)

/-- What lies at a task's storage path: a JSON object, or bytes that fail
`json.load` (`JSONDecodeError`). -/
inductive StoredBlob where
  | dict (d : TaskDict)
  | badJson (raw : String)

/-- `TaskStorage`: the task files keyed by `task_id` (the sha256-derived path is
injective per id), plus the append-only result files. -/
structure Store where
  tasks : List (String × StoredBlob)
  results : List TaskResult

/-- Read the blob at a task's path, `none` when the file does not exist. -/
def lookupTask (s : Store) (task_id : String) : Option StoredBlob :=
  (s.tasks.find? (fun p => p.1 == task_id)).map (fun p => p.2)

/-- `TaskStorage.save_task`: stamps `updated_at = utcnow()`, then overwrites the
task's file with `to_dict`. -/
def save_task (s : Store) (now : Int) (task : ScheduledTask) : Store :=
  let stamped := { task with updated_at := PStr.isoStr now }
  { s with
    tasks := (task.task_id, StoredBlob.dict (to_dict stamped)) ::
      s.tasks.filter (fun p => p.1 != task.task_id) }

/-- `TaskStorage.save_result`: writes a fresh result file. -/
def save_result (s : Store) (result : TaskResult) : Store :=
  { s with results := result :: s.results }

/-- `TaskStorage.load_task`: `None` when the file is absent; `json.JSONDecodeError`
and `KeyError` are caught and degrade to `None`; any other exception (notably the
`ValueError` from an enum constructor in `from_dict`) propagates. -/
def load_task (s : Store) (now : Int) (task_id : String) :
    Except PyExc (Option ScheduledTask) :=
  match lookupTask s task_id with
  | none => Except.ok none
  | some (StoredBlob.badJson _) => Except.ok none
  | some (StoredBlob.dict d) =>
    match from_dict now d with
    | Except.ok t => Except.ok (some t)
    | Except.error PyExc.keyError => Except.ok none
    | Except.error e => Except.error e

/-- The `ScheduledTask(...)` constructor call at the top of `create_task`: default
state, `next_run` not yet computed. -/
def new_task_record (now : Int) (task_id name description : String)
    (schedule_type : ScheduleType) (schedule_value : PStr) (skill_type : SkillType)
    (context : List (String × String)) (prompt : String) (session_id : Option String)
    (timezone : String) : ScheduledTask where
  task_id := task_id
  name := name
  description := description
  schedule_type := schedule_type
  schedule_value := schedule_value
  skill_type := skill_type
  context := context
  prompt := prompt
  status := TaskStatus.pending
  last_run := none
  next_run := none
  run_count := 0
  session_id := session_id
  notify_callback := none
  created_at := PStr.isoStr now
  updated_at := PStr.isoStr now
  timezone := timezone

/-- `TaskScheduler.create_task`: builds the dataclass with default state, computes
the initial `next_run` (silently skipped when the calculator yields nothing) and
always saves the task.  Returns the updated store and the task. -/
def create_task (s : Store) (now : Int) (task_id name description : String)
    (schedule_type : ScheduleType) (schedule_value : PStr) (skill_type : SkillType)
    (context : List (String × String)) (prompt : String) (session_id : Option String)
    (timezone : String) : Store × ScheduledTask :=
  let task : ScheduledTask :=
    new_task_record now task_id name description schedule_type schedule_value
      skill_type context prompt session_id timezone
  let task :=
    match calculate_next_run HAS_CRONITER now task with
    | some next_run => { task with next_run := some (PStr.isoStr next_run) }
    | none => task
  (save_task s now task, task)

/-- `TaskScheduler.enable_task`: loads the task (a `ValueError` escaping `load_task`
propagates), sets `status = pending`, overwrites `next_run` only when the calculator
yields a value, saves, and reports whether the task existed. -/
def enable_task (s : Store) (now : Int) (task_id : String) :
    Except PyExc (Store × Bool) :=
  match load_task s now task_id with
  | Except.error e => Except.error e
  | Except.ok none => Except.ok (s, false)
  | Except.ok (some task) =>
    let task := { task with status := TaskStatus.pending }
    let task :=
      match calculate_next_run HAS_CRONITER now task with
      | some next_run => { task with next_run := some (PStr.isoStr next_run) }
      | none => task
    Except.ok (save_task s now task, true)

/-- `TaskScheduler.disable_task`: loads the task, sets `status = disabled`, saves. -/
def disable_task (s : Store) (now : Int) (task_id : String) :
    Except PyExc (Store × Bool) :=
  match load_task s now task_id with
  | Except.error e => Except.error e
  | Except.ok none => Except.ok (s, false)
  | Except.ok (some task) =>
    Except.ok (save_task s now { task with status := TaskStatus.disabled }, true)

/-- The `execution_id` digest `sha256(task_id + "_" + now)[:12]`, modelled as an
injective tag of its two inputs. -/
def execution_id_of (task_id : String) (startedAt : Int) : String :=
  task_id ++ "_" ++ toString startedAt

/-- The task-state update of `TaskExecutor.execute_task`'s success branch before the
next run is recalculated: `status = COMPLETED`, `last_run = completed_at`,
`run_count += 1`, `next_run = None`. -/
def post_success_state (completedAt : Int) (task : ScheduledTask) : ScheduledTask :=
  { task with
    status := TaskStatus.completed
    last_run := some (PStr.isoStr completedAt)
    run_count := task.run_count + 1
    next_run := none }

/-- `TaskExecutor.execute_task`.  The skill invocation's outcome is the explicit
`outcome` argument; `startedAt` and `completedAt` stand for the `utcnow()` readings
before and after it (the later `utcnow()` calls of the same completion step are
identified with `completedAt`).  Returns the final store, the updated task and the
`TaskResult`. -/
def execute_task (s : Store) (startedAt completedAt : Int) (task : ScheduledTask)
    (outcome : SkillOutcome) : Store × ScheduledTask × TaskResult :=
  let execution_id := execution_id_of task.task_id startedAt
  let task1 := { task with status := TaskStatus.running }
  let s1 := save_task s startedAt task1
  match outcome with
  | SkillOutcome.res skill_result =>
    let duration_ms := (completedAt - startedAt) * 1000
    let result : TaskResult :=
      { task_id := task.task_id
        execution_id := execution_id
        started_at := PStr.isoStr startedAt
        completed_at := PStr.isoStr completedAt
        success := skill_result.success
        result_content := skill_result.content.take 10000
        error := skill_result.error
        duration_ms := duration_ms }
    let task2 := post_success_state completedAt task1
    let task3 :=
      match calculate_next_run HAS_CRONITER completedAt task2 with
      | some next_run =>
        { task2 with next_run := some (PStr.isoStr next_run), status := TaskStatus.pending }
      | none =>
        if task2.schedule_type = ScheduleType.once then
          { task2 with status := TaskStatus.completed }
        else task2
    (save_result (save_task s1 completedAt task3) result, task3, result)
  | SkillOutcome.exc msg =>
    let duration_ms := (completedAt - startedAt) * 1000
    let result : TaskResult :=
      { task_id := task.task_id
        execution_id := execution_id
        started_at := PStr.isoStr startedAt
        completed_at := PStr.isoStr completedAt
        success := false
        result_content := ""
        error := some msg
        duration_ms := duration_ms }
    let task2 :=
      { task1 with status := TaskStatus.failed, last_run := some (PStr.isoStr completedAt) }
    (save_result (save_task s1 completedAt task2) result, task2, result)

/-! Concrete fixtures used to instantiate the theorems below. -/

/-- A store with no task files and no result files. -/
def emptyStore : Store :=
  { tasks := [], results := [] }

/-- A concrete task with the given schedule, status and run history. -/
def mkTask (st : ScheduleType) (sv : PStr) (stat : TaskStatus) (lr nr : Option PStr)
    (rc : Nat) : ScheduledTask where
  task_id := "t1"
  name := "sample"
  description := "a sample task"
  schedule_type := st
  schedule_value := sv
  skill_type := SkillType.discuss
  context := []
  prompt := ""
  status := stat
  last_run := lr
  next_run := nr
  run_count := rc
  session_id := none
  notify_callback := none
  created_at := PStr.isoStr 0
  updated_at := PStr.isoStr 0
  timezone := "UTC"

/-! Theorems settling the claims. -/

/-- C4: for an interval task whose `schedule_value` spells the integer `N`,
`calculate_next_run` yields `last_run + N` when a `last_run` timestamp exists, and
`now + N` (not `now`) when the task has never run. -/
theorem interval_next_run_spec (hc : Bool) (now n : Int) (task : ScheduledTask)
    (ht : task.schedule_type = ScheduleType.interval)
    (hv : task.schedule_value = PStr.intStr n) :
    (∀ t : Int, task.last_run = some (PStr.isoStr t) →
      calculate_next_run hc now task = some (t + n)) ∧
    (task.last_run = none → calculate_next_run hc now task = some (now + n)) := by
  constructor
  · intro t hlr
    simp [calculate_next_run, ht, hv, pyIntOf, hlr, truthyOpt, PStr.truthy, fromiso]
  · intro hlr
    simp [calculate_next_run, ht, hv, pyIntOf, hlr, truthyOpt]

/-- Witness for C4 at `N = 60`: with `last_run = 500` the next run is `560`; with no
`last_run` and `now = 1000` it is `1060`. -/
theorem interval_next_run_spec_witness :
    calculate_next_run true 1000 (mkTask ScheduleType.interval (PStr.intStr 60)
      TaskStatus.pending (some (PStr.isoStr 500)) none 3) = some (500 + 60) ∧
    calculate_next_run true 1000 (mkTask ScheduleType.interval (PStr.intStr 60)
      TaskStatus.pending none none 0) = some (1000 + 60) :=
  ⟨(interval_next_run_spec true 1000 60 (mkTask ScheduleType.interval (PStr.intStr 60)
      TaskStatus.pending (some (PStr.isoStr 500)) none 3) rfl rfl).1 500 rfl,
   (interval_next_run_spec true 1000 60 (mkTask ScheduleType.interval (PStr.intStr 60)
      TaskStatus.pending none none 0) rfl rfl).2 rfl⟩

/-- C5: for a once task whose `schedule_value` is the timestamp `t`,
`calculate_next_run` yields `t` exactly when `t` is strictly after `now` and
`run_count = 0`, and `none` in every other case. -/
theorem once_next_run_iff (hc : Bool) (now t : Int) (task : ScheduledTask)
    (ht : task.schedule_type = ScheduleType.once)
    (hv : task.schedule_value = PStr.isoStr t) :
    calculate_next_run hc now task =
      if t > now ∧ task.run_count = 0 then some t else none := by
  simp [calculate_next_run, ht, hv, fromiso]

/-- Witness for C5: a future one-shot with `run_count = 0` fires at its timestamp; the
same timestamp with `run_count = 1`, or a past timestamp, yields `none`. -/
theorem once_next_run_iff_witness :
    calculate_next_run true 5 (mkTask ScheduleType.once (PStr.isoStr 10)
      TaskStatus.pending none none 0) = some 10 ∧
    calculate_next_run true 5 (mkTask ScheduleType.once (PStr.isoStr 10)
      TaskStatus.pending none none 1) = none ∧
    calculate_next_run true 50 (mkTask ScheduleType.once (PStr.isoStr 10)
      TaskStatus.pending none none 0) = none := by
  refine ⟨?_, ?_, ?_⟩
  · rw [once_next_run_iff true 5 10 (mkTask ScheduleType.once (PStr.isoStr 10)
      TaskStatus.pending none none 0) rfl rfl]
    rfl
  · rw [once_next_run_iff true 5 10 (mkTask ScheduleType.once (PStr.isoStr 10)
      TaskStatus.pending none none 1) rfl rfl]
    rfl
  · rw [once_next_run_iff true 50 10 (mkTask ScheduleType.once (PStr.isoStr 10)
      TaskStatus.pending none none 0) rfl rfl]
    rfl

/-- C6: `is_due` is `false` for a disabled task whatever `next_run` holds, `false`
when `next_run` is absent, and otherwise (for a parseable `next_run` timestamp `t`)
`true` exactly when `now ≥ t`. -/
theorem is_due_spec (now : Int) (task : ScheduledTask) :
    (task.status = TaskStatus.disabled → is_due now task = false) ∧
    (task.next_run = none → is_due now task = false) ∧
    (∀ t : Int, task.status ≠ TaskStatus.disabled →
      task.next_run = some (PStr.isoStr t) →
      (is_due now task = true ↔ now ≥ t)) := by
  refine ⟨?_, ?_, ?_⟩
  · intro hst
    simp [is_due, hst]
  · intro hnr
    simp [is_due, hnr, truthyOpt]
  · intro t hst hnr
    simp [is_due, hst, hnr, truthyOpt, PStr.truthy, fromiso]

/-- Witness for C6: a disabled task with a long-past `next_run` is not due; a pending
task without `next_run` is not due; and a pending task with `next_run = 50` is due at
`now = 100` exactly because `100 ≥ 50`. -/
theorem is_due_spec_witness :
    is_due 100 (mkTask ScheduleType.interval (PStr.intStr 60) TaskStatus.disabled
      none (some (PStr.isoStr 1)) 0) = false ∧
    is_due 100 (mkTask ScheduleType.interval (PStr.intStr 60) TaskStatus.pending
      none none 0) = false ∧
    is_due 100 (mkTask ScheduleType.interval (PStr.intStr 60) TaskStatus.pending
      none (some (PStr.isoStr 50)) 0) = true := by
  refine ⟨?_, ?_, ?_⟩
  · exact (is_due_spec 100 (mkTask ScheduleType.interval (PStr.intStr 60)
      TaskStatus.disabled none (some (PStr.isoStr 1)) 0)).1 rfl
  · exact (is_due_spec 100 (mkTask ScheduleType.interval (PStr.intStr 60)
      TaskStatus.pending none none 0)).2.1 rfl
  · exact ((is_due_spec 100 (mkTask ScheduleType.interval (PStr.intStr 60)
      TaskStatus.pending none (some (PStr.isoStr 50)) 0)).2.2 50
      (by decide) rfl).mpr (by decide)

/-- C10: a `next_run` that is present but not a parseable ISO-8601 timestamp makes
`is_due` return `false` (the `ValueError` is caught) rather than raise. -/
theorem is_due_unparseable_false (now : Int) (task : ScheduledTask) (nr : PStr)
    (hnr : task.next_run = some nr) (hbad : fromiso nr = none) :
    is_due now task = false := by
  simp [is_due, hnr, hbad]

/-- Witness for C10: `next_run = "not-a-date"` yields `false` at `now = 100`. -/
theorem is_due_unparseable_false_witness :
    is_due 100 (mkTask ScheduleType.interval (PStr.intStr 60) TaskStatus.pending
      none (some (PStr.junk "not-a-date")) 0) = false :=
  is_due_unparseable_false 100 (mkTask ScheduleType.interval (PStr.intStr 60)
    TaskStatus.pending none (some (PStr.junk "not-a-date")) 0)
    (PStr.junk "not-a-date") rfl rfl

/-- C8: serialising any `ScheduledTask` to the persisted record format and
deserialising the result reproduces every field exactly, the enum fields
round-tripping through their fixed value strings. -/
theorem task_dict_round_trip (now : Int) (task : ScheduledTask) :
    from_dict now (to_dict task) = Except.ok task := by
  obtain ⟨tid, nm, ds, st, sv, sk, ctx, pr, stat, lr, nr, rc, sid, nc, ca, ua, tz⟩ := task
  cases st <;> cases sk <;> cases stat <;> rfl

/-- Overwriting the `status` of a task before taking the post-success state does not
change the post-success state. -/
theorem post_success_state_status_irrel (c : Int) (task : ScheduledTask)
    (st : TaskStatus) :
    post_success_state c { task with status := st } = post_success_state c task := rfl

/-- C7: when the skill invocation returns a result with `success = true`, the
executed task ends with `last_run` at the completion time, `run_count` incremented by
exactly one, `next_run` recomputed from the post-success state, and status `pending`
when a next run exists, `completed` otherwise. -/
theorem execute_success_spec (s : Store) (startedAt completedAt : Int)
    (task : ScheduledTask) (skill_result : SkillResult)
    (_hsucc : skill_result.success = true) :
    (execute_task s startedAt completedAt task
        (SkillOutcome.res skill_result)).2.1.last_run = some (PStr.isoStr completedAt) ∧
    (execute_task s startedAt completedAt task
        (SkillOutcome.res skill_result)).2.1.run_count = task.run_count + 1 ∧
    (execute_task s startedAt completedAt task
        (SkillOutcome.res skill_result)).2.1.next_run
      = Option.map (fun t => PStr.isoStr t)
          (calculate_next_run HAS_CRONITER completedAt
            (post_success_state completedAt task)) ∧
    (execute_task s startedAt completedAt task
        (SkillOutcome.res skill_result)).2.1.status
      = (if (calculate_next_run HAS_CRONITER completedAt
              (post_success_state completedAt task)).isSome
         then TaskStatus.pending else TaskStatus.completed) := by
  cases h : calculate_next_run HAS_CRONITER completedAt (post_success_state completedAt task) with
  | none =>
    simp only [execute_task, post_success_state_status_irrel, h]
    by_cases ho : task.schedule_type = ScheduleType.once <;>
      simp [post_success_state, ho]
  | some t =>
    simp only [execute_task, post_success_state_status_irrel, h]
    simp [post_success_state]

/-- A concrete successful skill reply. -/
def okSkillResult : SkillResult where
  success := true
  content := "ok"
  data := none
  error := none

/-- Witness for C7 (Scenario D): a 60-second interval task, succeeding at time 20,
ends with `run_count = 1`, `status = pending`, and `next_run = 20 + 60 = 80`. -/
theorem execute_success_spec_witness :
    (execute_task emptyStore 10 20 (mkTask ScheduleType.interval (PStr.intStr 60)
        TaskStatus.pending none (some (PStr.isoStr 10)) 0)
        (SkillOutcome.res okSkillResult)).2.1.last_run = some (PStr.isoStr 20) ∧
    (execute_task emptyStore 10 20 (mkTask ScheduleType.interval (PStr.intStr 60)
        TaskStatus.pending none (some (PStr.isoStr 10)) 0)
        (SkillOutcome.res okSkillResult)).2.1.run_count = 1 ∧
    (execute_task emptyStore 10 20 (mkTask ScheduleType.interval (PStr.intStr 60)
        TaskStatus.pending none (some (PStr.isoStr 10)) 0)
        (SkillOutcome.res okSkillResult)).2.1.next_run = some (PStr.isoStr 80) ∧
    (execute_task emptyStore 10 20 (mkTask ScheduleType.interval (PStr.intStr 60)
        TaskStatus.pending none (some (PStr.isoStr 10)) 0)
        (SkillOutcome.res okSkillResult)).2.1.status = TaskStatus.pending := by
  have h := execute_success_spec emptyStore 10 20 (mkTask ScheduleType.interval
    (PStr.intStr 60) TaskStatus.pending none (some (PStr.isoStr 10)) 0)
    okSkillResult rfl
  refine ⟨h.1, h.2.1, ?_, ?_⟩
  · rw [h.2.2.1]
    rfl
  · rw [h.2.2.2]
    rfl

/-- C9: enabling an existing task for which the calculator cannot resolve a next
occurrence sets its status to `pending`, reports `true`, and saves it with the
previously stored `next_run` untouched — a stale past `next_run` survives, so the
re-enabled task can be observed as due again. -/
theorem enable_task_stale_next_run (s : Store) (now : Int) (task_id : String)
    (task : ScheduledTask)
    (hload : load_task s now task_id = Except.ok (some task))
    (hcalc : calculate_next_run HAS_CRONITER now
      { task with status := TaskStatus.pending } = none) :
    enable_task s now task_id =
      Except.ok (save_task s now { task with status := TaskStatus.pending }, true) ∧
    ({ task with status := TaskStatus.pending } : ScheduledTask).next_run
      = task.next_run ∧
    (∀ t : Int, task.next_run = some (PStr.isoStr t) → now ≥ t →
      is_due now { task with status := TaskStatus.pending } = true) := by
  refine ⟨?_, rfl, ?_⟩
  · simp only [enable_task, hload]
    simp [hcalc]
  · intro t hnr hge
    simp [is_due, hnr, truthyOpt, PStr.truthy, fromiso, hge]

/-- A one-shot task that already ran, disabled, with a stale past `next_run`. -/
def staleTask : ScheduledTask :=
  mkTask ScheduleType.once (PStr.isoStr 50) TaskStatus.disabled (some (PStr.isoStr 50))
    (some (PStr.isoStr 50)) 1

/-- A store holding only the persisted record of `staleTask`. -/
def staleStore : Store :=
  { tasks := [("t1", StoredBlob.dict (to_dict staleTask))], results := [] }

/-- Witness for C9: re-enabling the already-run one-shot at `now = 100` succeeds,
saves it as pending with `next_run` still `50`, and it is observed as due. -/
theorem enable_task_stale_next_run_witness :
    enable_task staleStore 100 "t1" =
      Except.ok (save_task staleStore 100
        { staleTask with status := TaskStatus.pending }, true) ∧
    is_due 100 { staleTask with status := TaskStatus.pending } = true := by
  have h := enable_task_stale_next_run staleStore 100 "t1" staleTask rfl rfl
  exact ⟨h.1, h.2.2 50 rfl (by decide)⟩

/-- A concrete failed skill reply (returned, not raised). -/
def failSkillResult : SkillResult where
  success := false
  content := "model failure"
  data := none
  error := some "upstream failure"

/-- Counterexample to C1: a 60-second interval task whose skill call returns
`success = false` at time 20 ends with status `pending` (not `failed`) and with
`run_count` incremented from 0 to 1. -/
theorem execute_failed_result_not_failed_cx :
    (execute_task emptyStore 10 20 (mkTask ScheduleType.interval (PStr.intStr 60)
        TaskStatus.pending none (some (PStr.isoStr 10)) 0)
        (SkillOutcome.res failSkillResult)).2.1.status = TaskStatus.pending ∧
    TaskStatus.pending ≠ TaskStatus.failed ∧
    (execute_task emptyStore 10 20 (mkTask ScheduleType.interval (PStr.intStr 60)
        TaskStatus.pending none (some (PStr.isoStr 10)) 0)
        (SkillOutcome.res failSkillResult)).2.1.run_count = 1 :=
  ⟨rfl, by decide, rfl⟩

/-- C1 (amended): only a raised exception takes the failure path — status `failed`,
`last_run` set to the completion time, `run_count` not incremented, and `next_run`
left unchanged (not recomputed).  A returned result with `success = false` takes the
success path instead: status never `failed`, `run_count` incremented, `next_run`
recomputed by the success rule. -/
theorem execute_failure_paths_spec (s : Store) (startedAt completedAt : Int)
    (task : ScheduledTask) (outcome : SkillOutcome) :
    (∀ msg, outcome = SkillOutcome.exc msg →
      (execute_task s startedAt completedAt task outcome).2.1.status
          = TaskStatus.failed ∧
      (execute_task s startedAt completedAt task outcome).2.1.last_run
          = some (PStr.isoStr completedAt) ∧
      (execute_task s startedAt completedAt task outcome).2.1.run_count
          = task.run_count ∧
      (execute_task s startedAt completedAt task outcome).2.1.next_run
          = task.next_run) ∧
    (∀ r, outcome = SkillOutcome.res r → r.success = false →
      (execute_task s startedAt completedAt task outcome).2.1.status
          ≠ TaskStatus.failed ∧
      (execute_task s startedAt completedAt task outcome).2.1.run_count
          = task.run_count + 1 ∧
      (execute_task s startedAt completedAt task outcome).2.1.next_run
          = Option.map (fun t => PStr.isoStr t)
              (calculate_next_run HAS_CRONITER completedAt
                (post_success_state completedAt task))) := by
  constructor
  · intro msg hout
    subst hout
    simp [execute_task]
  · intro r hout _hfail
    subst hout
    cases h : calculate_next_run HAS_CRONITER completedAt
        (post_success_state completedAt task) with
    | none =>
      simp only [execute_task, post_success_state_status_irrel, h]
      by_cases ho : task.schedule_type = ScheduleType.once <;>
        simp [post_success_state, ho]
    | some t =>
      simp only [execute_task, post_success_state_status_irrel, h]
      simp [post_success_state]

/-- Witness for the amended C1: a raised exception leaves a one-shot task `failed`
with its stale `next_run = 99` untouched, while a returned `success = false` on an
interval task bumps `run_count` from 4 to 5. -/
theorem execute_failure_paths_spec_witness :
    (execute_task emptyStore 10 20 (mkTask ScheduleType.once (PStr.isoStr 99)
        TaskStatus.pending none (some (PStr.isoStr 99)) 0)
        (SkillOutcome.exc "boom")).2.1.status = TaskStatus.failed ∧
    (execute_task emptyStore 10 20 (mkTask ScheduleType.once (PStr.isoStr 99)
        TaskStatus.pending none (some (PStr.isoStr 99)) 0)
        (SkillOutcome.exc "boom")).2.1.next_run = some (PStr.isoStr 99) ∧
    (execute_task emptyStore 10 20 (mkTask ScheduleType.interval (PStr.intStr 30)
        TaskStatus.pending (some (PStr.isoStr 5)) (some (PStr.isoStr 35)) 4)
        (SkillOutcome.res failSkillResult)).2.1.run_count = 5 := by
  have h1 := (execute_failure_paths_spec emptyStore 10 20 (mkTask ScheduleType.once
    (PStr.isoStr 99) TaskStatus.pending none (some (PStr.isoStr 99)) 0)
    (SkillOutcome.exc "boom")).1 "boom" rfl
  have h2 := (execute_failure_paths_spec emptyStore 10 20 (mkTask ScheduleType.interval
    (PStr.intStr 30) TaskStatus.pending (some (PStr.isoStr 5)) (some (PStr.isoStr 35)) 4)
    (SkillOutcome.res failSkillResult)).2 failSkillResult rfl rfl
  exact ⟨h1.1, h1.2.2.2, h2.2.1⟩

/-- Counterexample to C2: `create_task` with the unparseable interval value "abc"
does not fail — the task is persisted, with no `next_run`. -/
theorem create_task_malformed_persists_cx :
    (lookupTask (create_task emptyStore 0 "t1" "n" "d" ScheduleType.interval
        (PStr.junk "abc") SkillType.discuss [] "" none "UTC").1 "t1").isSome = true ∧
    (create_task emptyStore 0 "t1" "n" "d" ScheduleType.interval (PStr.junk "abc")
        SkillType.discuss [] "" none "UTC").2.next_run = none :=
  ⟨rfl, rfl⟩

/-- C2 (amended): `create_task` performs no schedule validation and raises nothing;
when the calculator cannot parse the schedule, the task is still persisted, with
`next_run` simply left `None`. -/
theorem create_task_no_validation_spec (s : Store) (now : Int)
    (task_id name description : String) (st : ScheduleType) (sv : PStr)
    (sk : SkillType) (ctx : List (String × String)) (pr : String)
    (sid : Option String) (tz : String)
    (hml : calculate_next_run HAS_CRONITER now
      (new_task_record now task_id name description st sv sk ctx pr sid tz) = none) :
    create_task s now task_id name description st sv sk ctx pr sid tz =
      (save_task s now
        (new_task_record now task_id name description st sv sk ctx pr sid tz),
       new_task_record now task_id name description st sv sk ctx pr sid tz) ∧
    (new_task_record now task_id name description st sv sk ctx pr sid tz).next_run
      = none ∧
    (lookupTask (create_task s now task_id name description st sv sk ctx pr sid tz).1
        task_id).isSome = true := by
  refine ⟨?_, rfl, ?_⟩
  · simp [create_task, hml]
  · simp only [create_task, hml]
    simp [lookupTask, save_task, new_task_record, List.find?]

/-- Witness for the amended C2: the junk interval value "xyz" is accepted, saved,
and retrievable. -/
theorem create_task_no_validation_spec_witness :
    create_task emptyStore 0 "t2" "n" "d" ScheduleType.interval (PStr.junk "xyz")
        SkillType.discuss [] "" none "UTC" =
      (save_task emptyStore 0 (new_task_record 0 "t2" "n" "d" ScheduleType.interval
        (PStr.junk "xyz") SkillType.discuss [] "" none "UTC"),
       new_task_record 0 "t2" "n" "d" ScheduleType.interval (PStr.junk "xyz")
        SkillType.discuss [] "" none "UTC") ∧
    (lookupTask (create_task emptyStore 0 "t2" "n" "d" ScheduleType.interval
        (PStr.junk "xyz") SkillType.discuss [] "" none "UTC").1 "t2").isSome
      = true := by
  have h := create_task_no_validation_spec emptyStore 0 "t2" "n" "d"
    ScheduleType.interval (PStr.junk "xyz") SkillType.discuss [] "" none "UTC" rfl
  exact ⟨h.1, h.2.2⟩

/-- A persisted record whose `schedule_type` field holds the invalid value
"weekly"; every required key is present. -/
def badEnumDict : TaskDict where
  task_id := some "t1"
  name := some "n"
  description := some "d"
  schedule_type := some "weekly"
  schedule_value := some (PStr.intStr 60)
  skill_type := some "discuss"
  context := some []
  prompt := some ""
  status := some "pending"
  last_run := some none
  next_run := some none
  run_count := some 0
  session_id := some none
  notify_callback := some none
  created_at := some (PStr.isoStr 0)
  updated_at := some (PStr.isoStr 0)
  timezone := some "UTC"

/-- A store holding only the corrupt record `badEnumDict`. -/
def badEnumStore : Store :=
  { tasks := [("t1", StoredBlob.dict badEnumDict)], results := [] }

/-- Counterexample to C3: loading a persisted record whose `schedule_type` is the
invalid enum value "weekly" raises `ValueError` instead of returning `None`. -/
theorem load_task_bad_enum_raises_cx :
    load_task badEnumStore 0 "t1" = Except.error PyExc.valueError := rfl

/-- C3 (amended): `load_task` returns `None` when the record is absent, when it is
unreadable JSON, or when a required key is missing (`KeyError` caught); but a record
whose `schedule_kind`, `skill_type` or `status` string is not a fixed enum value
raises `ValueError` to the caller. -/
theorem load_task_malformed_spec (s : Store) (now : Int) (task_id : String) :
    (lookupTask s task_id = none → load_task s now task_id = Except.ok none) ∧
    (∀ raw, lookupTask s task_id = some (StoredBlob.badJson raw) →
      load_task s now task_id = Except.ok none) ∧
    (∀ d, lookupTask s task_id = some (StoredBlob.dict d) →
      from_dict now d = Except.error PyExc.keyError →
      load_task s now task_id = Except.ok none) ∧
    (∀ d, lookupTask s task_id = some (StoredBlob.dict d) →
      from_dict now d = Except.error PyExc.valueError →
      load_task s now task_id = Except.error PyExc.valueError) := by
  refine ⟨?_, ?_, ?_, ?_⟩
  · intro h
    simp [load_task, h]
  · intro raw h
    simp [load_task, h]
  · intro d h hfd
    simp [load_task, h, hfd]
  · intro d h hfd
    simp [load_task, h, hfd]

/-- A persisted record missing the required `name` key. -/
def missingKeyDict : TaskDict where
  task_id := some "t3"
  name := none
  description := some "d"
  schedule_type := some "interval"
  schedule_value := some (PStr.intStr 60)
  skill_type := some "discuss"
  context := some []
  prompt := some ""
  status := some "pending"
  last_run := some none
  next_run := some none
  run_count := some 0
  session_id := some none
  notify_callback := some none
  created_at := some (PStr.isoStr 0)
  updated_at := some (PStr.isoStr 0)
  timezone := some "UTC"

/-- A persisted record whose `status` field holds the invalid value "paused". -/
def badStatusDict : TaskDict where
  task_id := some "t4"
  name := some "n"
  description := some "d"
  schedule_type := some "interval"
  schedule_value := some (PStr.intStr 60)
  skill_type := some "discuss"
  context := some []
  prompt := some ""
  status := some "paused"
  last_run := some none
  next_run := some none
  run_count := some 0
  session_id := some none
  notify_callback := some none
  created_at := some (PStr.isoStr 0)
  updated_at := some (PStr.isoStr 0)
  timezone := some "UTC"

/-- A store mixing an unreadable file, a record missing a key, and a record with a
bad `status` value. -/
def assortedStore : Store :=
  { tasks := [("bad", StoredBlob.badJson "not json"),
              ("t3", StoredBlob.dict missingKeyDict),
              ("t4", StoredBlob.dict badStatusDict)]
    results := [] }

/-- Witness for the amended C3: an absent id and the unreadable and key-missing
records load as `None`, while the bad `status` record raises `ValueError`. -/
theorem load_task_malformed_spec_witness :
    load_task assortedStore 0 "absent" = Except.ok none ∧
    load_task assortedStore 0 "bad" = Except.ok none ∧
    load_task assortedStore 0 "t3" = Except.ok none ∧
    load_task assortedStore 0 "t4" = Except.error PyExc.valueError :=
  ⟨(load_task_malformed_spec assortedStore 0 "absent").1 rfl,
   (load_task_malformed_spec assortedStore 0 "bad").2.1 "not json" rfl,
   (load_task_malformed_spec assortedStore 0 "t3").2.2.1 missingKeyDict rfl rfl,
   (load_task_malformed_spec assortedStore 0 "t4").2.2.2 badStatusDict rfl rfl⟩

end TaskSchedulerModel
